import Mathlib

/-!
Verification of the embedded frame player (`VideoPlayer` in
`src/gui/components/video_manager_panel.py`) of the autoReel repository.

The player is a small state machine over an optional OpenCV capture handle.
We embed its state and operations shallowly: machine attributes become record
fields, the `cv2.VideoCapture` behaviour visible to the player (open status,
reported metadata, per-frame reads, position get/set) becomes a small `Cap`
record, and observable effects (frames handed to the canvas, completion
callbacks scheduled, decode-loop threads started) become counters so that
"no render happened" and "no loop was started" are stateable.
-/

set_option autoImplicit false

namespace AutoReel

/-- A decoder handle as `cv2.VideoCapture` presents it to the player: whether
the open succeeded (`isOpened()`), the frame count and frame rate the
container reports (`CAP_PROP_FRAME_COUNT`, `CAP_PROP_FPS`), the number of
frames actually decodable, and the current position (`CAP_PROP_POS_FRAMES`). -/
structure Cap where
  opened : Bool
  frameCount : ℚ
  reportedFps : ℚ
  nframes : ℕ
  pos : ℤ
  deriving DecidableEq

/-- What `cv2.VideoCapture(path)` finds at a path: whether the source opens,
the metadata it reports, and how many frames it can decode. -/
structure Source where
  opened : Bool
  frameCount : ℚ
  reportedFps : ℚ
  nframes : ℕ
  deriving DecidableEq

/-- `cv2.VideoCapture(path)` always yields a capture object (never `None`);
for an unopenable source the object merely reports `isOpened() == False`.
Its position starts at frame 0. -/
def Source.capture (src : Source) : Cap :=
  ⟨src.opened, src.frameCount, src.reportedFps, src.nframes, 0⟩

/-- `cap.read()`: succeeds exactly when the capture is opened and positioned
before the end of the decodable frames; on success the position advances by
one. A failed read (unopened capture or end of stream) changes nothing. -/
def Cap.read (c : Cap) : Bool × Cap :=
  if c.opened = true ∧ c.pos < (c.nframes : ℤ) then (true, { c with pos := c.pos + 1 })
  else (false, c)

/-- `cap.set(cv2.CAP_PROP_POS_FRAMES, n)`. -/
def Cap.setPos (c : Cap) (n : ℤ) : Cap := { c with pos := n }

/-- Python `int()` applied to a (rational-modelled) float: truncation toward
zero. -/
def pyInt (q : ℚ) : ℤ := if q < 0 then -(Int.floor (-q)) else Int.floor q

/-- The state of a `VideoPlayer` instance. `cap`, `is_playing`, `is_paused`,
`current_frame`, `total_frames` and `fps` are the instance attributes;
`stop_flag` is the `threading.Event`; `on_complete` records whether a
completion callback was registered at construction. The counters `renders`,
`notifies` and `loops` record observable effects: frames handed to the canvas
for display, completion callbacks scheduled, and decode-loop threads
started. -/
structure Player where
  cap : Option Cap
  is_playing : Bool
  is_paused : Bool
  stop_flag : Bool
  current_frame : ℤ
  total_frames : ℤ
  fps : ℚ
  on_complete : Bool
  renders : ℕ
  notifies : ℕ
  loops : ℕ
  deriving DecidableEq

/-- `VideoPlayer.__init__` (lines 146-156): no capture, nothing playing,
indices zero, `fps` defaulted to 30; `cb` says whether an `on_complete`
callback was supplied. -/
def Player.init (cb : Bool) : Player :=
  ⟨none, false, false, false, 0, 0, 30, cb, 0, 0, 0⟩

/-- `VideoPlayer.stop` (lines 304-312): set the stop flag, clear the playing
and paused flags, and — since a capture object is always truthy — release and
drop the capture whenever one is held. -/
def Player.stop (p : Player) : Player :=
  let p := { p with stop_flag := true, is_playing := false, is_paused := false }
  match p.cap with
  | some _ => { p with cap := none }
  | none => p

/-- `VideoPlayer._show_frame` (lines 179-219): with no capture, return;
otherwise optionally reposition the capture, read one frame, and on a
successful read render it (counted in `renders`). A failed read returns
silently, keeping any repositioning already applied. -/
def Player.show_frame (p : Player) (frame_num : Option ℤ) : Player :=
  match p.cap with
  | none => p
  | some c =>
    let c := match frame_num with
      | some n => c.setPos n
      | none => c
    let rc := c.read
    let p := { p with cap := some rc.2 }
    if rc.1 = true then { p with renders := p.renders + 1 } else p

/-- `VideoPlayer.load` (lines 158-177): call `stop()` first, then store the
capture object returned by `cv2.VideoCapture(path)` — the object is stored
even when the open failed — and return `false` if it is not opened. On
success, record the reported frame count through `int()`, apply Python's
`or 30` frame-rate fallback (which replaces only a falsy, i.e. zero, rate),
reset `current_frame` to 0, and show frame 0. -/
def Player.load (p : Player) (src : Source) : Bool × Player :=
  let p := p.stop
  let p := { p with cap := some src.capture }
  if src.opened = false then (false, p)
  else
    let p := { p with total_frames := pyInt src.frameCount,
                      fps := if src.reportedFps = 0 then 30 else src.reportedFps,
                      current_frame := 0 }
    (true, p.show_frame (some 0))

/-- `VideoPlayer.play` (lines 221-230): return immediately when no capture
object is held (`not self.cap`, i.e. `cap is None`) or when already playing;
otherwise set `is_playing`, clear `is_paused`, clear the stop flag, and start
the decode-loop thread (counted in `loops`). -/
def Player.play (p : Player) : Player :=
  if p.cap = none ∨ p.is_playing = true then p
  else { p with is_playing := true, is_paused := false, stop_flag := false,
                loops := p.loops + 1 }

/-- Whether a decode-loop iteration leaves the loop running. -/
inductive LoopOutcome where
  | continued
  | terminated
  deriving DecidableEq

/-- One iteration of `VideoPlayer._play_loop` (lines 232-260): exit when the
stop flag is set; while paused, sleep and re-check; break when the capture is
gone; on a failed read (end of stream) reposition the capture to frame 0,
reset `current_frame` to 0, schedule the completion callback when one is
registered, and continue; on a successful read update `current_frame` from the
capture's reported position and schedule a render. Leaving the loop clears
`is_playing` (line 260). -/
def Player.play_loop_iter (p : Player) : Player × LoopOutcome :=
  if p.stop_flag = true then ({ p with is_playing := false }, .terminated)
  else if p.is_paused = true then (p, .continued)
  else match p.cap with
  | none => ({ p with is_playing := false }, .terminated)
  | some c =>
    let rc := c.read
    if rc.1 = false then
      let p := { p with cap := some (rc.2.setPos 0), current_frame := 0 }
      if p.on_complete = true then ({ p with notifies := p.notifies + 1 }, .continued)
      else (p, .continued)
    else
      ({ p with cap := some rc.2, current_frame := rc.2.pos,
                renders := p.renders + 1 }, .continued)

/-- `VideoPlayer.pause` (lines 288-290). -/
def Player.pause (p : Player) : Player := { p with is_paused := true }

/-- `VideoPlayer.resume` (lines 292-294). -/
def Player.resume (p : Player) : Player := { p with is_paused := false }

/-- `VideoPlayer.toggle_pause` (lines 296-302): resume when paused, otherwise
pause, and return the new value of the paused flag. -/
def Player.toggle_pause (p : Player) : Player × Bool :=
  let p := if p.is_paused = true then p.resume else p.pause
  (p, p.is_paused)

/-- `VideoPlayer.seek` (lines 314-321): only when a capture is held and
`total_frames > 0`, compute `int(position * total_frames)`, reposition the
capture there, update `current_frame`, and when not playing show that frame
immediately. No clamping of the computed index is performed. -/
def Player.seek (p : Player) (position : ℚ) : Player :=
  match p.cap with
  | none => p
  | some c =>
    if p.total_frames > 0 then
      let frame_num := pyInt (position * (p.total_frames : ℚ))
      let p := { p with cap := some (c.setPos frame_num), current_frame := frame_num }
      if p.is_playing = false then p.show_frame none else p
    else p

/-- `VideoPlayer.get_progress` (lines 323-327): `current_frame / total_frames`
when `total_frames > 0`, else 0. -/
def Player.get_progress (p : Player) : ℚ :=
  if p.total_frames > 0 then (p.current_frame : ℚ) / (p.total_frames : ℚ) else 0

/-- An operating-system-level decoder-handle event. Opening a source acquires
a handle; `cap.release()` on an opened capture closes it (releasing an
unopened capture closes nothing). -/
inductive HEvent where
  | acquire
  | release
  deriving DecidableEq

/-- Number of open decoder handles accounted for by a stored capture: an
opened capture holds one; an unopened capture, or no capture, holds none. -/
def capOpen : Option Cap → ℕ
  | none => 0
  | some c => if c.opened = true then 1 else 0

/-- Handle events of `VideoPlayer.stop`: `cap.release()` closes the decoder
handle exactly when the held capture is opened. -/
def stopEvents (p : Player) : List HEvent :=
  match p.cap with
  | none => []
  | some c => if c.opened = true then [.release] else []

/-- Handle events of `VideoPlayer.load`, in program order: first the events of
the initial `self.stop()`, then the acquisition performed by
`cv2.VideoCapture(path)` when the source opens. -/
def loadEvents (p : Player) (src : Source) : List HEvent :=
  stopEvents p ++ if src.opened = true then [.acquire] else []

/-- Effect of one handle event on the number of open handles. -/
def applyHEvent (n : ℕ) : HEvent → ℕ
  | .acquire => n + 1
  | .release => n - 1

/-- Number of handles open after a list of events, starting from `n` open. -/
def runCount (n : ℕ) (es : List HEvent) : ℕ := es.foldl applyHEvent n

/-- A loaded, stopped ten-frame session, used as a concrete seek input. -/
def seekDemo : Player :=
  { Player.init true with cap := some ⟨true, 10, 30, 10, 0⟩, total_frames := 10 }

/-! ### Helper lemmas -/

theorem Cap.read_opened (c : Cap) : c.read.2.opened = c.opened := by
  unfold Cap.read
  split <;> rfl

theorem show_frame_fields (p : Player) (n : Option ℤ) :
    (p.show_frame n).current_frame = p.current_frame ∧
    (p.show_frame n).total_frames = p.total_frames ∧
    (p.show_frame n).fps = p.fps ∧
    (p.show_frame n).is_playing = p.is_playing ∧
    capOpen (p.show_frame n).cap = capOpen p.cap := by
  unfold Player.show_frame
  cases hc : p.cap with
  | none => simp [hc]
  | some c =>
    cases n <;> simp only [] <;> split <;>
      simp [capOpen, Cap.read_opened, Cap.setPos]

theorem pyInt_of_nonneg (q : ℚ) (h : 0 ≤ q) : pyInt q = Int.floor q := by
  unfold pyInt
  rw [if_neg (not_lt.mpr h)]

/-! ### Claims -/

/-- C1, counterexample: seeking to position 1.0 on a loaded, stopped ten-frame
session sets `current_frame` to 10, equal to `total_frames` and exceeding
`total_frames - 1`: the clamp the claim requires is absent. -/
theorem C1_counterexample :
    (seekDemo.seek 1).current_frame = 10 ∧ seekDemo.total_frames = 10 ∧
    ¬ (seekDemo.seek 1).current_frame ≤ seekDemo.total_frames - 1 := by
  have h : (seekDemo.seek 1).current_frame = 10 := by
    norm_num [seekDemo, Player.init, Player.seek, pyInt, Player.show_frame,
      Cap.setPos, Cap.read]
  exact ⟨h, rfl, by rw [h]; decide⟩

/-- C1, amended: while a capture is held, `total_frames` is positive and the
session is stopped, `seek position` with `position` in [0, 1] sets
`current_frame` to `⌊position * total_frames⌋` — unclamped, so position 1.0
yields `total_frames` itself, one past the last valid frame index. -/
theorem C1_seek_sets_floor (p : Player) (c : Cap) (position : ℚ)
    (hc : p.cap = some c) (ht : 0 < p.total_frames)
    (hstop : p.is_playing = false)
    (h0 : 0 ≤ position) (h1 : position ≤ 1) :
    (p.seek position).current_frame = Int.floor (position * (p.total_frames : ℚ)) := by
  have hq : 0 ≤ position * (p.total_frames : ℚ) := by
    apply mul_nonneg h0
    exact_mod_cast ht.le
  unfold Player.seek
  rw [hc]
  simp only [ht, if_true, hstop]
  rw [(show_frame_fields _ none).1]
  simp [pyInt_of_nonneg _ hq]

/-- C1 witness: seeking to position 1/2 on the ten-frame demo session puts
`current_frame` at frame 5. -/
theorem C1_seek_sets_floor_witness : (seekDemo.seek (1/2)).current_frame = 5 := by
  have h := C1_seek_sets_floor seekDemo ⟨true, 10, 30, 10, 0⟩ (1/2) rfl
    (by decide) rfl (by norm_num) (by norm_num)
  rw [h]
  norm_num [seekDemo, Player.init]

/-- A source that cannot be opened, e.g. a missing file. -/
def missingSrc : Source := ⟨false, 0, 0, 0⟩

/-- C2: the code evaluated at the failing input. From a fresh player, loading
an unopenable source returns `false` and leaves `get_progress` at 0, but
`play()` is not a no-op: the unopened capture object stored in `cap` defeats
the `not self.cap` guard, so `play` sets `is_playing` and starts a decode-loop
thread. -/
theorem C2_failed_load_play_not_noop :
    ((Player.init true).load missingSrc).1 = false ∧
    ((Player.init true).load missingSrc).2.get_progress = 0 ∧
    ((Player.init true).load missingSrc).2.play.is_playing = true ∧
    ((Player.init true).load missingSrc).2.play.loops = 1 := by decide

/-- A source that opens successfully but reports a negative frame rate. -/
def negRateSrc : Source := ⟨true, 10, -5, 10⟩

/-- A source that opens successfully but reports frame rate 0. -/
def zeroRateSrc : Source := ⟨true, 10, 0, 10⟩

/-- C3, counterexample: loading a source that reports frame rate −5 succeeds,
yet `fps` is stored as −5 rather than the fallback 30: Python's `or 30`
replaces only a falsy (zero) rate, so negative rates pass through. -/
theorem C3_counterexample :
    ((Player.init false).load negRateSrc).1 = true ∧
    ((Player.init false).load negRateSrc).2.fps = -5 ∧
    ((Player.init false).load negRateSrc).2.fps ≠ 30 := by
  refine ⟨rfl, ?_, ?_⟩ <;>
    norm_num [Player.init, Player.load, Player.stop, Player.show_frame,
      Source.capture, Cap.read, Cap.setPos, negRateSrc, pyInt]

/-- C3, amended: on a successful load, `fps` gets the fallback 30 exactly when
the source reports rate 0 (the only falsy float); any nonzero reported rate,
negative ones included, is stored unchanged. -/
theorem C3_fps_or_fallback (p : Player) (src : Source) (h : src.opened = true) :
    ((p.load src).2).fps = if src.reportedFps = 0 then 30 else src.reportedFps := by
  unfold Player.load
  rw [h, if_neg (by simp)]
  rw [(show_frame_fields _ _).2.2.1]

/-- C3 witness: loading a source that reports rate 0 stores the fallback 30. -/
theorem C3_fps_or_fallback_witness :
    ((Player.init false).load zeroRateSrc).2.fps = 30 := by
  have h := C3_fps_or_fallback (Player.init false) zeroRateSrc rfl
  rw [h]
  norm_num [zeroRateSrc]

theorem load_capOpen (p : Player) (src : Source) :
    capOpen ((p.load src).2).cap = if src.opened = true then 1 else 0 := by
  unfold Player.load
  cases hs : src.opened with
  | false =>
    simp [capOpen, Source.capture, hs]
  | true =>
    simp only [show ((true : Bool) = false) = False by simp, if_false,
      show ((true : Bool) = true) = True by simp, if_true]
    rw [(show_frame_fields _ _).2.2.2.2]
    simp [capOpen, Source.capture, hs]

/-- C4: at most one decoder handle is open at any instant. Starting from the
handles the current state holds, every prefix of `load`'s handle-event trace
(release during the initial `stop()`, then acquire) keeps the open count at or
below one; the trace's final count matches the loaded state; and `stop` leaves
no handle open. -/
theorem C4_single_handle (p : Player) (src : Source) :
    (∀ n, runCount (capOpen p.cap) ((loadEvents p src).take n) ≤ 1) ∧
    runCount (capOpen p.cap) (loadEvents p src) = capOpen ((p.load src).2).cap ∧
    capOpen p.stop.cap = 0 := by
  have hstop : capOpen p.stop.cap = 0 := by
    unfold Player.stop
    cases p.cap <;> simp [capOpen]
  refine ⟨?_, ?_, hstop⟩
  · intro n
    rcases hc : p.cap with _ | c
    · cases hs : src.opened <;>
        rcases n with _ | _ | n <;>
          simp [loadEvents, stopEvents, hc, hs, runCount, applyHEvent, capOpen]
    · cases hs : src.opened <;> cases ho : c.opened <;>
        rcases n with _ | _ | n <;>
          simp [loadEvents, stopEvents, hc, hs, ho, runCount, applyHEvent, capOpen]
  · rw [load_capOpen]
    rcases hc : p.cap with _ | c
    · cases hs : src.opened <;>
        simp [loadEvents, stopEvents, hc, hs, runCount, applyHEvent, capOpen]
    · cases hs : src.opened <;> cases ho : c.opened <;>
        simp [loadEvents, stopEvents, hc, hs, ho, runCount, applyHEvent, capOpen]

/-- C5: in any decode-loop iteration where the stop flag is clear, the loop is
not paused, a capture is held and the read fails (end of stream), the loop
repositions the capture to frame 0, resets `current_frame` to 0, schedules
exactly one completion notification (a callback being registered), and
continues rather than terminating: `is_playing` stays as it was. -/
theorem C5_end_of_stream_restarts (p : Player) (c : Cap)
    (hc : p.cap = some c) (hs : p.stop_flag = false) (hp : p.is_paused = false)
    (hr : c.read.1 = false) (hcb : p.on_complete = true) :
    p.play_loop_iter.2 = LoopOutcome.continued ∧
    p.play_loop_iter.1.current_frame = 0 ∧
    p.play_loop_iter.1.cap = some (c.setPos 0) ∧
    p.play_loop_iter.1.notifies = p.notifies + 1 ∧
    p.play_loop_iter.1.is_playing = p.is_playing := by
  have hr2 : c.read.2 = c := by
    by_cases hco : c.opened = true ∧ c.pos < (c.nframes : ℤ)
    · exfalso
      unfold Cap.read at hr
      rw [if_pos hco] at hr
      exact absurd hr (by simp)
    · unfold Cap.read
      rw [if_neg hco]
  unfold Player.play_loop_iter
  rw [hc, hs, hp]
  simp only [show ((false : Bool) = true) = False by simp, if_false]
  rw [hr, hr2]
  simp [hcb]

/-- A playing session whose capture sits at the end of its ten frames. -/
def endOfStreamDemo : Player :=
  { Player.init true with
    cap := some ⟨true, 10, 30, 10, 10⟩,
    is_playing := true, current_frame := 9, total_frames := 10 }

/-- C5 witness: an end-of-stream iteration on the demo session continues the
loop, resets `current_frame` to 0 and schedules one notification. -/
theorem C5_end_of_stream_restarts_witness :
    endOfStreamDemo.play_loop_iter.2 = LoopOutcome.continued ∧
    endOfStreamDemo.play_loop_iter.1.current_frame = 0 ∧
    endOfStreamDemo.play_loop_iter.1.notifies = 1 ∧
    endOfStreamDemo.play_loop_iter.1.is_playing = true := by
  have h := C5_end_of_stream_restarts endOfStreamDemo ⟨true, 10, 30, 10, 10⟩
    rfl rfl rfl (by decide) rfl
  refine ⟨h.1, h.2.1, ?_, ?_⟩
  · rw [h.2.2.2.1]
    decide
  · rw [h.2.2.2.2]
    decide

/-- C6: `get_progress` returns `current_frame / total_frames` whenever
`total_frames` is positive, and exactly 0 when `total_frames` is 0, so no
division by zero is performed. -/
theorem C6_progress_division_guard (p : Player) :
    (0 < p.total_frames →
      p.get_progress = (p.current_frame : ℚ) / (p.total_frames : ℚ)) ∧
    (p.total_frames = 0 → p.get_progress = 0) := by
  constructor <;> intro h <;> simp [Player.get_progress, h]

/-- A stopped session three frames into six. -/
def progressDemo : Player :=
  { Player.init false with current_frame := 3, total_frames := 6 }

/-- C6 witness: three frames into six is progress 1/2, and a fresh player
(with `total_frames = 0`) reports progress 0. -/
theorem C6_progress_division_guard_witness :
    progressDemo.get_progress = 1 / 2 ∧ (Player.init false).get_progress = 0 := by
  constructor
  · rw [(C6_progress_division_guard progressDemo).1 (by decide)]
    norm_num [progressDemo, Player.init]
  · exact (C6_progress_division_guard (Player.init false)).2 rfl

/-- C7: one `stop` clears the playing and paused flags and releases the
capture, and a second consecutive `stop` leaves the entire state unchanged. -/
theorem C7_stop_idempotent (p : Player) :
    p.stop.is_playing = false ∧ p.stop.is_paused = false ∧ p.stop.cap = none ∧
    p.stop.stop = p.stop := by
  unfold Player.stop
  cases p.cap <;> simp

/-- A second unopenable source, with nonzero reported metadata. -/
def corruptSrc : Source := ⟨false, 120, 24, 0⟩

/-- C8: the code evaluated at the failing input. After a failed load of an
unopenable source no source is loaded, yet `play` is not a no-op: because the
stored unopened capture object is not `None`, `play` changes the state,
sets `is_playing` and starts a decode-loop thread. -/
theorem C8_play_after_failed_load :
    ((Player.init false).load corruptSrc).1 = false ∧
    ((Player.init false).load corruptSrc).2.cap ≠ none ∧
    ((Player.init false).load corruptSrc).2.play ≠
      ((Player.init false).load corruptSrc).2 ∧
    ((Player.init false).load corruptSrc).2.play.is_playing = true ∧
    ((Player.init false).load corruptSrc).2.play.loops =
      ((Player.init false).load corruptSrc).2.loops + 1 := by decide

/-- C9: with no capture held, or with `total_frames` equal to 0, `seek` leaves
the entire state unchanged: the capture is not repositioned, `current_frame`
keeps its value, and no frame is rendered. -/
theorem C9_seek_noop (p : Player) (position : ℚ)
    (h : p.cap = none ∨ p.total_frames = 0) :
    p.seek position = p := by
  unfold Player.seek
  rcases h with h | h
  · rw [h]
  · cases hc : p.cap with
    | none => rfl
    | some c => simp [h]

/-- C9 witness: seeking on a fresh, unloaded player changes nothing. -/
theorem C9_seek_noop_witness :
    (Player.init true).seek (3 / 4) = Player.init true :=
  C9_seek_noop (Player.init true) (3 / 4) (Or.inl rfl)

/-- C10: `toggle_pause` flips only the paused flag, returns the flag's new
value — `true` exactly when the call paused a previously unpaused session —
and two consecutive calls restore the original state entirely. -/
theorem C10_toggle_pause_involution (p : Player) :
    p.toggle_pause.1 = { p with is_paused := !p.is_paused } ∧
    p.toggle_pause.2 = !p.is_paused ∧
    p.toggle_pause.1.toggle_pause.1 = p := by
  obtain ⟨cap, ip, ipd, sf, cf, tf, fr, cb, r, nt, lp⟩ := p
  cases ipd <;> exact ⟨rfl, rfl, rfl⟩

end AutoReel
